import Mathlib

/-!
Shallow embedding of the MAL interaction layer of `ccsdsmo-malgo`
(files `mal/api/operations.go` and `mal/api/handlers.go`).

Go channels are modelled as an explicit buffer (`Queue`): receiving pops
the head of the buffer; an empty closed buffer yields the end-of-stream
signal (`more = false` in Go); an empty open buffer blocks the caller,
modelled by the `blocked` outcome.  Machine integers (Go `uint64` used by
the transaction counter) are `Nat` reduced modulo `2 ^ 64` where the
source performs arithmetic on them.
-/

namespace MalApi

/-- Operation status values, from the `const ( _CREATED byte = iota ... )`
block of `operations.go`.  The Go code compares statuses with `==` only,
so an inductive with decidable equality is a faithful model of the
`byte` constants. -/
inductive Status where
  | CREATED
  | INITIATED
  | ACKNOWLEDGED
  | PROGRESSING
  | REGISTER_INITIATED
  | REGISTERED
  | REREGISTER_INITIATED
  | DEREGISTER_INITIATED
  | FINAL
  | CLOSED
deriving DecidableEq, Repr

/-- Modelled from the spec: `interaction_type` is one of
{SEND, SUBMIT, REQUEST, INVOKE, PROGRESS, PUBSUB} (spec section 3); the
`MAL_INTERACTIONTYPE_*` constants live in the `mal` package, which is not
part of the sources under analysis. -/
inductive InteractionType where
  | SEND
  | SUBMIT
  | REQUEST
  | INVOKE
  | PROGRESS
  | PUBSUB
deriving DecidableEq, Repr

/-- Modelled from the spec: interaction-stage constants (spec section 6).
The `MAL_IP_STAGE_*` numeric constants live in the `mal` package, which is
not part of the sources under analysis; the spec fixes them as distinct
small integers per pattern, in ascending stage order. -/
def MAL_IP_STAGE_SEND : Nat := 1

def MAL_IP_STAGE_SUBMIT : Nat := 1

def MAL_IP_STAGE_SUBMIT_ACK : Nat := 2

def MAL_IP_STAGE_REQUEST : Nat := 1

def MAL_IP_STAGE_REQUEST_RESPONSE : Nat := 2

def MAL_IP_STAGE_INVOKE : Nat := 1

def MAL_IP_STAGE_INVOKE_ACK : Nat := 2

def MAL_IP_STAGE_INVOKE_RESPONSE : Nat := 3

def MAL_IP_STAGE_PROGRESS : Nat := 1

def MAL_IP_STAGE_PROGRESS_ACK : Nat := 2

def MAL_IP_STAGE_PROGRESS_UPDATE : Nat := 3

def MAL_IP_STAGE_PROGRESS_RESPONSE : Nat := 4

def MAL_IP_STAGE_PUBSUB_REGISTER : Nat := 1

def MAL_IP_STAGE_PUBSUB_REGISTER_ACK : Nat := 2

def MAL_IP_STAGE_PUBSUB_PUBLISH_REGISTER : Nat := 3

def MAL_IP_STAGE_PUBSUB_PUBLISH_REGISTER_ACK : Nat := 4

def MAL_IP_STAGE_PUBSUB_PUBLISH : Nat := 5

def MAL_IP_STAGE_PUBSUB_NOTIFY : Nat := 6

def MAL_IP_STAGE_PUBSUB_DEREGISTER : Nat := 7

def MAL_IP_STAGE_PUBSUB_DEREGISTER_ACK : Nat := 8

def MAL_IP_STAGE_PUBSUB_PUBLISH_DEREGISTER : Nat := 9

def MAL_IP_STAGE_PUBSUB_PUBLISH_DEREGISTER_ACK : Nat := 10

/-- Modelled from the spec: the `Message` envelope (spec section 3); the
`Message` struct lives in the `mal` package, which is not part of the
sources under analysis.  Only the fields read or written by
`operations.go` / `handlers.go` are kept; the remaining header fields
(qos, priority, domain, ...) are never inspected by those files. -/
structure Message where
  uriFrom : String
  uriTo : String
  interactionType : InteractionType
  interactionStage : Nat
  serviceArea : Nat
  areaVersion : Nat
  service : Nat
  operation : Nat
  transactionId : Nat
  isErrorMessage : Bool
  body : List Nat
deriving DecidableEq, Repr

/-- The distinct error outcomes returned by `operations.go` and
`handlers.go` (each `errors.New` string gets one constructor), plus the
transport failure surfaced by `Ctx.Send`. -/
inductive MalError where
  /-- Go: "Bad operation status" -/
  | BadStatus
  /-- Go: "Operation ends" -/
  | OperationEnds
  /-- Go: "Bad return message" (a reply with an unexpected stage) -/
  | BadReturnMessage
  /-- Go: "Error message" (`is_error_message = true` on a reply) -/
  | ErrorMessage
  /-- Go: "Handler already registered for this transaction" -/
  | DuplicateTransaction
  /-- Go: "No handler registered for this transaction" -/
  | UnknownTransaction
  /-- Go: "MAL handler already registered" -/
  | DuplicateHandler
  /-- Go: "Bad handler type" -/
  | BadHandlerType
  /-- Go: "MAL handler not registered" -/
  | HandlerNotRegistered
  /-- Go: "Bad interaction stage for PubSub" -/
  | BadPubSubStage
  /-- transport failure reported by `Ctx.Send` -/
  | SendFailure
deriving DecidableEq, Repr

/-- The Go error strings, for reference against the source. -/
def MalError.message : MalError → String
  | .BadStatus => "Bad operation status"
  | .OperationEnds => "Operation ends"
  | .BadReturnMessage => "Bad return message"
  | .ErrorMessage => "Error message"
  | .DuplicateTransaction => "Handler already registered for this transaction"
  | .UnknownTransaction => "No handler registered for this transaction"
  | .DuplicateHandler => "MAL handler already registered"
  | .BadHandlerType => "Bad handler type"
  | .HandlerNotRegistered => "MAL handler not registered"
  | .BadPubSubStage => "Bad interaction stage for PubSub"
  | .SendFailure => "send failure"

/-- A Go buffered channel of `*Message`: buffered contents plus the
closed flag. -/
structure Queue where
  msgs : List Message
  closed : Bool
deriving DecidableEq, Repr

/-- Modelled from the spec: the transport-facing `Context` (spec section
4.1, "`send` hands `msg` to the transport and returns the transport's
outcome"); `Context` lives in the `mal` package, which is not part of the
sources under analysis.  `sent` records the messages handed to the
transport in order; `sendFails` selects the transport outcome. -/
structure Ctx where
  sent : List Message
  sendFails : Bool
deriving DecidableEq, Repr

/-- Model of `Ctx.Send`: hand the message to the transport, reporting the
transport's outcome. -/
def Ctx.Send (ctx : Ctx) (msg : Message) : Option MalError × Ctx :=
  if ctx.sendFails then
    (some MalError.SendFailure, ctx)
  else
    (none, { ctx with sent := ctx.sent ++ [msg] })

/-- Model of `OperationContext` from `operations.go`: URI, the per-transaction
demultiplexer map, and the transaction counter.  The Go map's values are
pointers to the registered operations; no property proved here inspects
them, so `handlers` keeps the registered key set (transaction ids). -/
structure OperationContext where
  ctx : Ctx
  uri : String
  handlers : List Nat
  txcounter : Nat
deriving DecidableEq, Repr

/-- Model of `OperationContext.register` (operations.go lines 56-65): fails when a
handler is already registered for the transaction id, otherwise adds the
entry. -/
def OperationContext.register (ictx : OperationContext) (tid : Nat) :
    Option MalError × OperationContext :=
  if tid ∈ ictx.handlers then
    (some MalError.DuplicateTransaction, ictx)
  else
    (none, { ictx with handlers := tid :: ictx.handlers })

/-- Model of `OperationContext.deregister` (operations.go lines 67-75): fails when
no handler is registered for the transaction id, otherwise removes the
entry. -/
def OperationContext.deregister (ictx : OperationContext) (tid : Nat) :
    Option MalError × OperationContext :=
  if tid ∈ ictx.handlers then
    (none, { ictx with handlers := ictx.handlers.erase tid })
  else
    (some MalError.UnknownTransaction, ictx)

/-- Model of `OperationContext.TransactionId` (operations.go lines 77-79):
`atomic.AddUint64(&ictx.txcounter, 1)` increments the 64-bit counter
(wrapping modulo `2 ^ 64`) and returns the new value. -/
def OperationContext.TransactionId (ictx : OperationContext) :
    Nat × OperationContext :=
  let c := (ictx.txcounter + 1) % 2 ^ 64
  (c, { ictx with txcounter := c })

/-- Model of `OperationX` from `operations.go`: the common state of every
operation.  `ch = none` models a nil channel (Send operations, and any
operation after `Close`). -/
structure OperationX where
  tid : Nat
  ch : Option Queue
  urito : String
  area : Nat
  areaVersion : Nat
  service : Nat
  operation : Nat
  status : Status
deriving DecidableEq, Repr

/-- Model of `OperationX.verify` (operations.go lines 119-125): the incoming
message must carry the operation's service coordinates. -/
def OperationX.verify (op : OperationX) (msg : Message) : Bool :=
  (msg.serviceArea == op.area) && (msg.areaVersion == op.areaVersion) &&
    (msg.service == op.service) && (msg.operation == op.operation)

/-- Model of `OperationX.finalize` (operations.go lines 128-135): set status FINAL
and, when the channel is not nil, deregister the transaction id from the
OperationContext (the deregister outcome is ignored). -/
def OperationX.finalize (op : OperationX) (ictx : OperationContext) :
    OperationX × OperationContext :=
  let op1 := { op with status := Status.FINAL }
  match op1.ch with
  | some _ => (op1, (ictx.deregister op1.tid).2)
  | none => (op1, ictx)

/-- Model of `OperationX.Close` (operations.go lines 143-158).  Note the source
sets `status = _CLOSED` *before* testing `status != _CREATED && status !=
_FINAL`, so that test always passes when the channel is not nil. -/
def OperationX.Close (op : OperationX) (ictx : OperationContext) :
    Option MalError × OperationX × OperationContext :=
  if op.status = Status.CLOSED then
    (none, op, ictx)
  else
    let op1 := { op with status := Status.CLOSED }
    match op1.ch with
    | some _ =>
      let r :=
        if op1.status ≠ Status.CREATED ∧ op1.status ≠ Status.FINAL then
          ictx.deregister op1.tid
        else
          (none, ictx)
      (r.1, { op1 with ch := none }, r.2)
    | none => (none, op1, ictx)

/-- Model of `OperationX.Reset` (operations.go lines 162-170): only legal in
FINAL; allocates a fresh transaction id and returns to CREATED. -/
def OperationX.Reset (op : OperationX) (ictx : OperationContext) :
    Option MalError × OperationX × OperationContext :=
  if op.status ≠ Status.FINAL then
    (some MalError.BadStatus, op, ictx)
  else
    let r := ictx.TransactionId
    (none, { op with tid := r.1, status := Status.CREATED }, r.2)

/-- Result of an operation method: the Go `(*Message, error)` pair, or
`blocked` when the Go code would suspend forever (receive on an empty
open channel, or on a nil channel). -/
inductive OpOutcome where
  | ret (msg : Option Message) (err : Option MalError)
  | blocked
deriving DecidableEq, Repr

/-- The SUBMIT message built by `SubmitOperationX.Submit`
(operations.go lines 251-262). -/
def submitMsg (ictx : OperationContext) (op : OperationX) (body : List Nat) : Message :=
  { uriFrom := ictx.uri, uriTo := op.urito,
    interactionType := InteractionType.SUBMIT,
    interactionStage := MAL_IP_STAGE_SUBMIT,
    serviceArea := op.area, areaVersion := op.areaVersion,
    service := op.service, operation := op.operation,
    transactionId := op.tid, isErrorMessage := false, body := body }

/-- Model of `SubmitOperationX.Submit` (operations.go lines 245-295). -/
def SubmitOperationX.Submit (op : OperationX) (ictx : OperationContext)
    (body : List Nat) : OpOutcome × OperationX × OperationContext :=
  if op.status ≠ Status.CREATED then
    (OpOutcome.ret none (some MalError.BadStatus), op, ictx)
  else
    let op := { op with status := Status.INITIATED }
    let msg := submitMsg ictx op body
    let r := ictx.register op.tid
    match r.1 with
    | some e =>
      let f := op.finalize r.2
      (OpOutcome.ret none (some e), f.1, f.2)
    | none =>
      let ictx := r.2
      let s := ictx.ctx.Send msg
      let ictx := { ictx with ctx := s.2 }
      match s.1 with
      | some e =>
        let f := op.finalize ictx
        (OpOutcome.ret none (some e), f.1, f.2)
      | none =>
        match op.ch with
        | none => (OpOutcome.blocked, op, ictx)
        | some q =>
          match q.msgs, q.closed with
          | [], false => (OpOutcome.blocked, op, ictx)
          | [], true =>
            let f := op.finalize ictx
            (OpOutcome.ret none (some MalError.OperationEnds), f.1, f.2)
          | m :: rest, c =>
            let op := { op with ch := some ⟨rest, c⟩ }
            if m.interactionStage ≠ MAL_IP_STAGE_SUBMIT_ACK then
              let f := op.finalize ictx
              (OpOutcome.ret none (some MalError.BadReturnMessage), f.1, f.2)
            else
              let f := op.finalize ictx
              if m.isErrorMessage then
                (OpOutcome.ret (some m) (some MalError.ErrorMessage), f.1, f.2)
              else
                (OpOutcome.ret (some m) none, f.1, f.2)

/-- The REQUEST message built by `RequestOperationX.Request`
(operations.go lines 337-348). -/
def requestMsg (ictx : OperationContext) (op : OperationX) (body : List Nat) : Message :=
  { uriFrom := ictx.uri, uriTo := op.urito,
    interactionType := InteractionType.REQUEST,
    interactionStage := MAL_IP_STAGE_REQUEST,
    serviceArea := op.area, areaVersion := op.areaVersion,
    service := op.service, operation := op.operation,
    transactionId := op.tid, isErrorMessage := false, body := body }

/-- Model of `RequestOperationX.Request` (operations.go lines 331-382). -/
def RequestOperationX.Request (op : OperationX) (ictx : OperationContext)
    (body : List Nat) : OpOutcome × OperationX × OperationContext :=
  if op.status ≠ Status.CREATED then
    (OpOutcome.ret none (some MalError.BadStatus), op, ictx)
  else
    let op := { op with status := Status.INITIATED }
    let msg := requestMsg ictx op body
    let r := ictx.register op.tid
    match r.1 with
    | some e =>
      let f := op.finalize r.2
      (OpOutcome.ret none (some e), f.1, f.2)
    | none =>
      let ictx := r.2
      let s := ictx.ctx.Send msg
      let ictx := { ictx with ctx := s.2 }
      match s.1 with
      | some e =>
        let f := op.finalize ictx
        (OpOutcome.ret none (some e), f.1, f.2)
      | none =>
        match op.ch with
        | none => (OpOutcome.blocked, op, ictx)
        | some q =>
          match q.msgs, q.closed with
          | [], false => (OpOutcome.blocked, op, ictx)
          | [], true =>
            let f := op.finalize ictx
            (OpOutcome.ret none (some MalError.OperationEnds), f.1, f.2)
          | m :: rest, c =>
            let op := { op with ch := some ⟨rest, c⟩ }
            if m.interactionStage ≠ MAL_IP_STAGE_REQUEST_RESPONSE then
              let f := op.finalize ictx
              (OpOutcome.ret none (some MalError.BadReturnMessage), f.1, f.2)
            else
              let f := op.finalize ictx
              if m.isErrorMessage then
                (OpOutcome.ret (some m) (some MalError.ErrorMessage), f.1, f.2)
              else
                (OpOutcome.ret (some m) none, f.1, f.2)

/-- Model of `InvokeOperationX` (operations.go lines 406-410): the common state
plus the cached response. -/
structure InvokeOperationX extends OperationX where
  response : Option Message
deriving DecidableEq, Repr

/-- The INVOKE message built by `InvokeOperationX.Invoke`
(operations.go lines 427-438). -/
def invokeMsg (ictx : OperationContext) (op : InvokeOperationX) (body : List Nat) : Message :=
  { uriFrom := ictx.uri, uriTo := op.urito,
    interactionType := InteractionType.INVOKE,
    interactionStage := MAL_IP_STAGE_INVOKE,
    serviceArea := op.area, areaVersion := op.areaVersion,
    service := op.service, operation := op.operation,
    transactionId := op.tid, isErrorMessage := false, body := body }

/-- Model of `InvokeOperationX.Invoke` (operations.go lines 421-473). -/
def InvokeOperationX.Invoke (op : InvokeOperationX) (ictx : OperationContext)
    (body : List Nat) : OpOutcome × InvokeOperationX × OperationContext :=
  if op.status ≠ Status.CREATED then
    (OpOutcome.ret none (some MalError.BadStatus), op, ictx)
  else
    let op := { op with status := Status.INITIATED }
    let msg := invokeMsg ictx op body
    let r := ictx.register op.tid
    match r.1 with
    | some e =>
      let f := op.toOperationX.finalize r.2
      (OpOutcome.ret none (some e), { op with toOperationX := f.1 }, f.2)
    | none =>
      let ictx := r.2
      let s := ictx.ctx.Send msg
      let ictx := { ictx with ctx := s.2 }
      match s.1 with
      | some e =>
        let f := op.toOperationX.finalize ictx
        (OpOutcome.ret none (some e), { op with toOperationX := f.1 }, f.2)
      | none =>
        match op.ch with
        | none => (OpOutcome.blocked, op, ictx)
        | some q =>
          match q.msgs, q.closed with
          | [], false => (OpOutcome.blocked, op, ictx)
          | [], true =>
            let f := op.toOperationX.finalize ictx
            (OpOutcome.ret none (some MalError.OperationEnds),
              { op with toOperationX := f.1 }, f.2)
          | m :: rest, c =>
            let op := { op with ch := some ⟨rest, c⟩ }
            if m.interactionStage ≠ MAL_IP_STAGE_INVOKE_ACK then
              let f := op.toOperationX.finalize ictx
              (OpOutcome.ret none (some MalError.BadReturnMessage),
                { op with toOperationX := f.1 }, f.2)
            else
              let op := { op with status := Status.ACKNOWLEDGED }
              if m.isErrorMessage then
                let f := op.toOperationX.finalize ictx
                (OpOutcome.ret (some m) (some MalError.ErrorMessage),
                  { op with toOperationX := f.1 }, f.2)
              else
                (OpOutcome.ret (some m) none, op, ictx)

/-- Model of `InvokeOperationX.GetResponse` (operations.go lines 476-509). -/
def InvokeOperationX.GetResponse (op : InvokeOperationX) (ictx : OperationContext) :
    OpOutcome × InvokeOperationX × OperationContext :=
  match op.status, op.response with
  | Status.FINAL, some r =>
    if r.isErrorMessage then
      (OpOutcome.ret (some r) (some MalError.ErrorMessage), op, ictx)
    else
      (OpOutcome.ret (some r) none, op, ictx)
  | _, _ =>
    if op.status ≠ Status.ACKNOWLEDGED then
      (OpOutcome.ret none (some MalError.BadStatus), op, ictx)
    else
      match op.ch with
      | none => (OpOutcome.blocked, op, ictx)
      | some q =>
        match q.msgs, q.closed with
        | [], false => (OpOutcome.blocked, op, ictx)
        | [], true =>
          let f := op.toOperationX.finalize ictx
          (OpOutcome.ret none (some MalError.OperationEnds),
            { op with toOperationX := f.1 }, f.2)
        | m :: rest, c =>
          let op := { op with ch := some ⟨rest, c⟩ }
          if m.interactionStage ≠ MAL_IP_STAGE_INVOKE_RESPONSE then
            let f := op.toOperationX.finalize ictx
            (OpOutcome.ret none (some MalError.BadReturnMessage),
              { op with toOperationX := f.1 }, f.2)
          else
            let f := op.toOperationX.finalize ictx
            let op := { op with toOperationX := f.1, response := some m }
            if m.isErrorMessage then
              (OpOutcome.ret (some m) (some MalError.ErrorMessage), op, f.2)
            else
              (OpOutcome.ret (some m) none, op, f.2)

/-- Model of `ProgressOperationX` (operations.go lines 534-537): the common state
plus the cached response. -/
structure ProgressOperationX extends OperationX where
  response : Option Message
deriving DecidableEq, Repr

/-- The PROGRESS message built by `ProgressOperationX.Progress`
(operations.go lines 554-565). -/
def progressMsg (ictx : OperationContext) (op : ProgressOperationX) (body : List Nat) : Message :=
  { uriFrom := ictx.uri, uriTo := op.urito,
    interactionType := InteractionType.PROGRESS,
    interactionStage := MAL_IP_STAGE_PROGRESS,
    serviceArea := op.area, areaVersion := op.areaVersion,
    service := op.service, operation := op.operation,
    transactionId := op.tid, isErrorMessage := false, body := body }

/-- Model of `ProgressOperationX.Progress` (operations.go lines 548-600). -/
def ProgressOperationX.Progress (op : ProgressOperationX) (ictx : OperationContext)
    (body : List Nat) : OpOutcome × ProgressOperationX × OperationContext :=
  if op.status ≠ Status.CREATED then
    (OpOutcome.ret none (some MalError.BadStatus), op, ictx)
  else
    let op := { op with status := Status.INITIATED }
    let msg := progressMsg ictx op body
    let r := ictx.register op.tid
    match r.1 with
    | some e =>
      let f := op.toOperationX.finalize r.2
      (OpOutcome.ret none (some e), { op with toOperationX := f.1 }, f.2)
    | none =>
      let ictx := r.2
      let s := ictx.ctx.Send msg
      let ictx := { ictx with ctx := s.2 }
      match s.1 with
      | some e =>
        let f := op.toOperationX.finalize ictx
        (OpOutcome.ret none (some e), { op with toOperationX := f.1 }, f.2)
      | none =>
        match op.ch with
        | none => (OpOutcome.blocked, op, ictx)
        | some q =>
          match q.msgs, q.closed with
          | [], false => (OpOutcome.blocked, op, ictx)
          | [], true =>
            let f := op.toOperationX.finalize ictx
            (OpOutcome.ret none (some MalError.OperationEnds),
              { op with toOperationX := f.1 }, f.2)
          | m :: rest, c =>
            let op := { op with ch := some ⟨rest, c⟩ }
            if m.interactionStage ≠ MAL_IP_STAGE_PROGRESS_ACK then
              let f := op.toOperationX.finalize ictx
              (OpOutcome.ret none (some MalError.BadReturnMessage),
                { op with toOperationX := f.1 }, f.2)
            else
              let op := { op with status := Status.ACKNOWLEDGED }
              if m.isErrorMessage then
                let f := op.toOperationX.finalize ictx
                (OpOutcome.ret (some m) (some MalError.ErrorMessage),
                  { op with toOperationX := f.1 }, f.2)
              else
                (OpOutcome.ret (some m) none, op, ictx)

/-- Model of `ProgressOperationX.GetUpdate` (operations.go lines 603-637). -/
def ProgressOperationX.GetUpdate (op : ProgressOperationX) (ictx : OperationContext) :
    OpOutcome × ProgressOperationX × OperationContext :=
  if op.status ≠ Status.ACKNOWLEDGED ∧ op.status ≠ Status.PROGRESSING then
    (OpOutcome.ret none (some MalError.BadStatus), op, ictx)
  else
    match op.ch with
    | none => (OpOutcome.blocked, op, ictx)
    | some q =>
      match q.msgs, q.closed with
      | [], false => (OpOutcome.blocked, op, ictx)
      | [], true =>
        let f := op.toOperationX.finalize ictx
        (OpOutcome.ret none (some MalError.OperationEnds),
          { op with toOperationX := f.1 }, f.2)
      | m :: rest, c =>
        let op := { op with ch := some ⟨rest, c⟩ }
        if m.interactionStage ≠ MAL_IP_STAGE_PROGRESS_UPDATE ∧
            m.interactionStage ≠ MAL_IP_STAGE_PROGRESS_RESPONSE then
          let f := op.toOperationX.finalize ictx
          (OpOutcome.ret none (some MalError.BadReturnMessage),
            { op with toOperationX := f.1 }, f.2)
        else if m.interactionStage = MAL_IP_STAGE_PROGRESS_UPDATE then
          let op := { op with status := Status.PROGRESSING }
          if m.isErrorMessage then
            let f := op.toOperationX.finalize ictx
            (OpOutcome.ret (some m) (some MalError.ErrorMessage),
              { op with toOperationX := f.1 }, f.2)
          else
            (OpOutcome.ret (some m) none, op, ictx)
        else
          let op := { op with response := some m }
          let f := op.toOperationX.finalize ictx
          (OpOutcome.ret none none, { op with toOperationX := f.1 }, f.2)

/-- Model of `ProgressOperationX.GetResponse` (operations.go lines 640-673). -/
def ProgressOperationX.GetResponse (op : ProgressOperationX) (ictx : OperationContext) :
    OpOutcome × ProgressOperationX × OperationContext :=
  match op.status, op.response with
  | Status.FINAL, some r =>
    if r.isErrorMessage then
      (OpOutcome.ret (some r) (some MalError.ErrorMessage), op, ictx)
    else
      (OpOutcome.ret (some r) none, op, ictx)
  | _, _ =>
    if op.status ≠ Status.ACKNOWLEDGED ∧ op.status ≠ Status.PROGRESSING then
      (OpOutcome.ret none (some MalError.BadStatus), op, ictx)
    else
      match op.ch with
      | none => (OpOutcome.blocked, op, ictx)
      | some q =>
        match q.msgs, q.closed with
        | [], false => (OpOutcome.blocked, op, ictx)
        | [], true =>
          let f := op.toOperationX.finalize ictx
          (OpOutcome.ret none (some MalError.OperationEnds),
            { op with toOperationX := f.1 }, f.2)
        | m :: rest, c =>
          let op := { op with ch := some ⟨rest, c⟩ }
          if m.interactionStage ≠ MAL_IP_STAGE_PROGRESS_RESPONSE then
            let f := op.toOperationX.finalize ictx
            (OpOutcome.ret none (some MalError.BadReturnMessage),
              { op with toOperationX := f.1 }, f.2)
          else
            let f := op.toOperationX.finalize ictx
            let op := { op with toOperationX := f.1, response := some m }
            if m.isErrorMessage then
              (OpOutcome.ret (some m) (some MalError.ErrorMessage), op, f.2)
            else
              (OpOutcome.ret (some m) none, op, f.2)

/-- The PUBSUB REGISTER message built by `SubscriberOperationX.Register`
(operations.go lines 718-729). -/
def subRegisterMsg (ictx : OperationContext) (op : OperationX) (body : List Nat) : Message :=
  { uriFrom := ictx.uri, uriTo := op.urito,
    interactionType := InteractionType.PUBSUB,
    interactionStage := MAL_IP_STAGE_PUBSUB_REGISTER,
    serviceArea := op.area, areaVersion := op.areaVersion,
    service := op.service, operation := op.operation,
    transactionId := op.tid, isErrorMessage := false, body := body }

/-- Model of `SubscriberOperationX.Register` (operations.go lines 711-764). -/
def SubscriberOperationX.Register (op : OperationX) (ictx : OperationContext)
    (body : List Nat) : OpOutcome × OperationX × OperationContext :=
  if op.status ≠ Status.CREATED then
    (OpOutcome.ret none (some MalError.BadStatus), op, ictx)
  else
    let op := { op with status := Status.REGISTER_INITIATED }
    let msg := subRegisterMsg ictx op body
    let r := ictx.register op.tid
    match r.1 with
    | some e =>
      let f := op.finalize r.2
      (OpOutcome.ret none (some e), f.1, f.2)
    | none =>
      let ictx := r.2
      let s := ictx.ctx.Send msg
      let ictx := { ictx with ctx := s.2 }
      match s.1 with
      | some e =>
        let f := op.finalize ictx
        (OpOutcome.ret none (some e), f.1, f.2)
      | none =>
        match op.ch with
        | none => (OpOutcome.blocked, op, ictx)
        | some q =>
          match q.msgs, q.closed with
          | [], false => (OpOutcome.blocked, op, ictx)
          | [], true =>
            let f := op.finalize ictx
            (OpOutcome.ret none (some MalError.OperationEnds), f.1, f.2)
          | m :: rest, c =>
            let op := { op with ch := some ⟨rest, c⟩ }
            if m.interactionStage ≠ MAL_IP_STAGE_PUBSUB_REGISTER_ACK then
              let f := op.finalize ictx
              (OpOutcome.ret none (some MalError.BadReturnMessage), f.1, f.2)
            else if m.isErrorMessage then
              let f := op.finalize ictx
              (OpOutcome.ret (some m) (some MalError.ErrorMessage), f.1, f.2)
            else
              (OpOutcome.ret (some m) none,
                { op with status := Status.REGISTERED }, ictx)

/-- Model of `SubscriberOperationX.GetNotify` (operations.go lines 767-793). -/
def SubscriberOperationX.GetNotify (op : OperationX) (ictx : OperationContext) :
    OpOutcome × OperationX × OperationContext :=
  if op.status ≠ Status.REGISTERED ∧ op.status ≠ Status.REREGISTER_INITIATED ∧
      op.status ≠ Status.DEREGISTER_INITIATED then
    (OpOutcome.ret none (some MalError.BadStatus), op, ictx)
  else
    match op.ch with
    | none => (OpOutcome.blocked, op, ictx)
    | some q =>
      match q.msgs, q.closed with
      | [], false => (OpOutcome.blocked, op, ictx)
      | [], true =>
        let f := op.finalize ictx
        (OpOutcome.ret none (some MalError.OperationEnds), f.1, f.2)
      | m :: rest, c =>
        let op := { op with ch := some ⟨rest, c⟩ }
        if m.interactionStage ≠ MAL_IP_STAGE_PUBSUB_NOTIFY then
          let f := op.finalize ictx
          (OpOutcome.ret none (some MalError.BadReturnMessage), f.1, f.2)
        else if m.isErrorMessage then
          let f := op.finalize ictx
          (OpOutcome.ret (some m) (some MalError.ErrorMessage), f.1, f.2)
        else
          (OpOutcome.ret (some m) none, op, ictx)

/-- The PUBSUB DEREGISTER message built by `SubscriberOperationX.Deregister`
(operations.go lines 801-812). -/
def subDeregisterMsg (ictx : OperationContext) (op : OperationX) (body : List Nat) : Message :=
  { uriFrom := ictx.uri, uriTo := op.urito,
    interactionType := InteractionType.PUBSUB,
    interactionStage := MAL_IP_STAGE_PUBSUB_DEREGISTER,
    serviceArea := op.area, areaVersion := op.areaVersion,
    service := op.service, operation := op.operation,
    transactionId := op.tid, isErrorMessage := false, body := body }

/-- The receive loop of `SubscriberOperationX.Deregister` (operations.go
lines 820-843): drain PUBSUB_NOTIFY messages until the DEREGISTER_ACK
arrives; recursion is on the buffered queue contents, since each loop
iteration consumes one buffered message (an exhausted open buffer means
the Go loop blocks). -/
def SubscriberOperationX.deregisterWait (op : OperationX) (ictx : OperationContext) :
    List Message → Bool → OpOutcome × OperationX × OperationContext
  | [], false => (OpOutcome.blocked, { op with ch := some ⟨[], false⟩ }, ictx)
  | [], true =>
    let op := { op with ch := some ⟨[], true⟩ }
    let f := op.finalize ictx
    (OpOutcome.ret none (some MalError.OperationEnds), f.1, f.2)
  | m :: rest, c =>
    if m.interactionStage = MAL_IP_STAGE_PUBSUB_NOTIFY then
      SubscriberOperationX.deregisterWait op ictx rest c
    else
      let op := { op with ch := some ⟨rest, c⟩ }
      if m.interactionStage ≠ MAL_IP_STAGE_PUBSUB_DEREGISTER_ACK then
        let f := op.finalize ictx
        (OpOutcome.ret none (some MalError.BadReturnMessage), f.1, f.2)
      else
        let f := op.finalize ictx
        if m.isErrorMessage then
          (OpOutcome.ret (some m) (some MalError.ErrorMessage), f.1, f.2)
        else
          (OpOutcome.ret (some m) none, f.1, f.2)

/-- Model of `SubscriberOperationX.Deregister` (operations.go lines 795-844). -/
def SubscriberOperationX.Deregister (op : OperationX) (ictx : OperationContext)
    (body : List Nat) : OpOutcome × OperationX × OperationContext :=
  if op.status ≠ Status.REGISTERED then
    (OpOutcome.ret none (some MalError.BadStatus), op, ictx)
  else
    let op := { op with status := Status.DEREGISTER_INITIATED }
    let msg := subDeregisterMsg ictx op body
    let s := ictx.ctx.Send msg
    let ictx := { ictx with ctx := s.2 }
    match s.1 with
    | some e =>
      let f := op.finalize ictx
      (OpOutcome.ret none (some e), f.1, f.2)
    | none =>
      match op.ch with
      | none => (OpOutcome.blocked, op, ictx)
      | some q => SubscriberOperationX.deregisterWait op ictx q.msgs q.closed

/-- The PUBSUB PUBLISH_REGISTER message built by
`PublisherOperationX.Register` (operations.go lines 889-900). -/
def pubRegisterMsg (ictx : OperationContext) (op : OperationX) (body : List Nat) : Message :=
  { uriFrom := ictx.uri, uriTo := op.urito,
    interactionType := InteractionType.PUBSUB,
    interactionStage := MAL_IP_STAGE_PUBSUB_PUBLISH_REGISTER,
    serviceArea := op.area, areaVersion := op.areaVersion,
    service := op.service, operation := op.operation,
    transactionId := op.tid, isErrorMessage := false, body := body }

/-- Model of `PublisherOperationX.Register` (operations.go lines 882-935). -/
def PublisherOperationX.Register (op : OperationX) (ictx : OperationContext)
    (body : List Nat) : OpOutcome × OperationX × OperationContext :=
  if op.status ≠ Status.CREATED then
    (OpOutcome.ret none (some MalError.BadStatus), op, ictx)
  else
    let op := { op with status := Status.REGISTER_INITIATED }
    let msg := pubRegisterMsg ictx op body
    let r := ictx.register op.tid
    match r.1 with
    | some e =>
      let f := op.finalize r.2
      (OpOutcome.ret none (some e), f.1, f.2)
    | none =>
      let ictx := r.2
      let s := ictx.ctx.Send msg
      let ictx := { ictx with ctx := s.2 }
      match s.1 with
      | some e =>
        let f := op.finalize ictx
        (OpOutcome.ret none (some e), f.1, f.2)
      | none =>
        match op.ch with
        | none => (OpOutcome.blocked, op, ictx)
        | some q =>
          match q.msgs, q.closed with
          | [], false => (OpOutcome.blocked, op, ictx)
          | [], true =>
            let f := op.finalize ictx
            (OpOutcome.ret none (some MalError.OperationEnds), f.1, f.2)
          | m :: rest, c =>
            let op := { op with ch := some ⟨rest, c⟩ }
            if m.interactionStage ≠ MAL_IP_STAGE_PUBSUB_PUBLISH_REGISTER_ACK then
              let f := op.finalize ictx
              (OpOutcome.ret none (some MalError.BadReturnMessage), f.1, f.2)
            else if m.isErrorMessage then
              let f := op.finalize ictx
              (OpOutcome.ret (some m) (some MalError.ErrorMessage), f.1, f.2)
            else
              (OpOutcome.ret (some m) none,
                { op with status := Status.REGISTERED }, ictx)

/-- The PUBSUB PUBLISH_DEREGISTER message built by
`PublisherOperationX.Deregister` (operations.go lines 970-981). -/
def pubDeregisterMsg (ictx : OperationContext) (op : OperationX) (body : List Nat) : Message :=
  { uriFrom := ictx.uri, uriTo := op.urito,
    interactionType := InteractionType.PUBSUB,
    interactionStage := MAL_IP_STAGE_PUBSUB_PUBLISH_DEREGISTER,
    serviceArea := op.area, areaVersion := op.areaVersion,
    service := op.service, operation := op.operation,
    transactionId := op.tid, isErrorMessage := false, body := body }

/-- Model of `PublisherOperationX.Deregister` (operations.go lines 964-1008). -/
def PublisherOperationX.Deregister (op : OperationX) (ictx : OperationContext)
    (body : List Nat) : OpOutcome × OperationX × OperationContext :=
  if op.status ≠ Status.REGISTERED then
    (OpOutcome.ret none (some MalError.BadStatus), op, ictx)
  else
    let op := { op with status := Status.DEREGISTER_INITIATED }
    let msg := pubDeregisterMsg ictx op body
    let s := ictx.ctx.Send msg
    let ictx := { ictx with ctx := s.2 }
    match s.1 with
    | some e =>
      let f := op.finalize ictx
      (OpOutcome.ret none (some e), f.1, f.2)
    | none =>
      match op.ch with
      | none => (OpOutcome.blocked, op, ictx)
      | some q =>
        match q.msgs, q.closed with
        | [], false => (OpOutcome.blocked, op, ictx)
        | [], true =>
          let f := op.finalize ictx
          (OpOutcome.ret none (some MalError.OperationEnds), f.1, f.2)
        | m :: rest, c =>
          let op := { op with ch := some ⟨rest, c⟩ }
          if m.interactionStage ≠ MAL_IP_STAGE_PUBSUB_PUBLISH_DEREGISTER_ACK then
            let f := op.finalize ictx
            (OpOutcome.ret none (some MalError.BadReturnMessage), f.1, f.2)
          else
            let f := op.finalize ictx
            if m.isErrorMessage then
              (OpOutcome.ret (some m) (some MalError.ErrorMessage), f.1, f.2)
            else
              (OpOutcome.ret (some m) none, f.1, f.2)

/-- Handler type constants, from the `const ( _SEND_HANDLER UOctet = iota
... )` block of `handlers.go`. -/
def SEND_HANDLER : Nat := 0

/-- Model of `_SUBMIT_HANDLER` -/
def SUBMIT_HANDLER : Nat := 1

/-- Model of `_REQUEST_HANDLER` -/
def REQUEST_HANDLER : Nat := 2

/-- Model of `_INVOKE_HANDLER` -/
def INVOKE_HANDLER : Nat := 3

/-- Model of `_PROGRESS_HANDLER` -/
def PROGRESS_HANDLER : Nat := 4

/-- Model of `_BROKER_HANDLER` -/
def BROKER_HANDLER : Nat := 5

/-- Modelled from the spec: the lookup key of the handler map is the
4-tuple `(area, area_version, service, operation)` (spec section 3,
"Handler descriptor"); the source's `key` function, which packs this
4-tuple into a `uint64`, lives in a file of the `mal/api` package that is
not among the sources under analysis, so the key is modelled as the
4-tuple itself. -/
def hkey (area areaVersion service operation : Nat) : Nat × Nat × Nat × Nat :=
  (area, areaVersion, service, operation)

/-- Model of `handlerDesc` from `handlers.go`: the registered descriptor.  The
`handler` callback is identified by an opaque numeric id. -/
structure HandlerDesc where
  handlerType : Nat
  area : Nat
  areaVersion : Nat
  service : Nat
  operation : Nat
  handler : Nat
deriving DecidableEq, Repr

/-- Model of `HandlerContext` from `handlers.go`: URI and the handler map keyed by
the packed 4-tuple. -/
structure HandlerContext where
  uri : String
  handlers : List ((Nat × Nat × Nat × Nat) × HandlerDesc)
deriving DecidableEq, Repr

/-- Model of `HandlerContext.register` (handlers.go lines 70-92): fails when a
descriptor is already registered under the key, otherwise stores the new
descriptor. -/
def HandlerContext.register (hctx : HandlerContext) (hdltype area areaVersion service operation handler : Nat) :
    Option MalError × HandlerContext :=
  let k := hkey area areaVersion service operation
  match hctx.handlers.lookup k with
  | some _ => (some MalError.DuplicateHandler, hctx)
  | none =>
    (none, { hctx with handlers :=
      (k, ⟨hdltype, area, areaVersion, service, operation, handler⟩) :: hctx.handlers })

/-- Model of `HandlerContext.getHandler` (handlers.go lines 171-186): look the
descriptor up under the 4-tuple key and check its handler type. -/
def HandlerContext.getHandler (hctx : HandlerContext) (hdltype area areaVersion service operation : Nat) :
    Except MalError Nat :=
  let k := hkey area areaVersion service operation
  match hctx.handlers.lookup k with
  | some d =>
    if d.handlerType = hdltype then
      Except.ok d.handler
    else
      Except.error MalError.BadHandlerType
  | none => Except.error MalError.HandlerNotRegistered

/-- The seven responder-side transaction variants of `handlers.go` /
`transactions.go`. -/
inductive TransactionKind where
  | SendTx
  | SubmitTx
  | RequestTx
  | InvokeTx
  | ProgressTx
  | PublisherTx
  | SubscriberTx
deriving DecidableEq, Repr

/-- Model of `TransactionX`: the fields every transaction variant is built with in
`HandlerContext.OnMessage` (`{hctx.Ctx, hctx.Uri, msg.UriFrom,
msg.TransactionId, msg.ServiceArea, msg.AreaVersion, msg.Service,
msg.Operation}`). -/
structure TransactionX where
  uri : String
  urifrom : String
  tid : Nat
  area : Nat
  areaVersion : Nat
  service : Nat
  operation : Nat
deriving DecidableEq, Repr

/-- The outcome of `HandlerContext.OnMessage`: either a handler callback
is invoked with a freshly built transaction, or an error is returned and
no handler runs. -/
inductive DispatchResult where
  | invoked (handler : Nat) (kind : TransactionKind) (t : TransactionX)
  | err (e : MalError)
deriving DecidableEq, Repr

/-- The transaction record `OnMessage` builds for a message. -/
def mkTransaction (hctx : HandlerContext) (msg : Message) : TransactionX :=
  ⟨hctx.uri, msg.uriFrom, msg.transactionId,
    msg.serviceArea, msg.areaVersion, msg.service, msg.operation⟩

/-- The handler type `OnMessage` requires for each interaction type
(the first argument of each `getHandler` call in handlers.go lines
188-254). -/
def requiredHandlerType : InteractionType → Nat
  | InteractionType.SEND => SEND_HANDLER
  | InteractionType.SUBMIT => SUBMIT_HANDLER
  | InteractionType.REQUEST => REQUEST_HANDLER
  | InteractionType.INVOKE => INVOKE_HANDLER
  | InteractionType.PROGRESS => PROGRESS_HANDLER
  | InteractionType.PUBSUB => BROKER_HANDLER

/-- Model of `HandlerContext.OnMessage` (handlers.go lines 188-254): dispatch by
interaction type, look up the handler under the message's 4-tuple, build
the matching transaction variant (for PUBSUB, chosen by interaction
stage), and invoke the handler. -/
def HandlerContext.OnMessage (hctx : HandlerContext) (msg : Message) : DispatchResult :=
  match msg.interactionType with
  | InteractionType.SEND =>
    match hctx.getHandler SEND_HANDLER msg.serviceArea msg.areaVersion msg.service msg.operation with
    | Except.error e => DispatchResult.err e
    | Except.ok h => DispatchResult.invoked h TransactionKind.SendTx (mkTransaction hctx msg)
  | InteractionType.SUBMIT =>
    match hctx.getHandler SUBMIT_HANDLER msg.serviceArea msg.areaVersion msg.service msg.operation with
    | Except.error e => DispatchResult.err e
    | Except.ok h => DispatchResult.invoked h TransactionKind.SubmitTx (mkTransaction hctx msg)
  | InteractionType.REQUEST =>
    match hctx.getHandler REQUEST_HANDLER msg.serviceArea msg.areaVersion msg.service msg.operation with
    | Except.error e => DispatchResult.err e
    | Except.ok h => DispatchResult.invoked h TransactionKind.RequestTx (mkTransaction hctx msg)
  | InteractionType.INVOKE =>
    match hctx.getHandler INVOKE_HANDLER msg.serviceArea msg.areaVersion msg.service msg.operation with
    | Except.error e => DispatchResult.err e
    | Except.ok h => DispatchResult.invoked h TransactionKind.InvokeTx (mkTransaction hctx msg)
  | InteractionType.PROGRESS =>
    match hctx.getHandler PROGRESS_HANDLER msg.serviceArea msg.areaVersion msg.service msg.operation with
    | Except.error e => DispatchResult.err e
    | Except.ok h => DispatchResult.invoked h TransactionKind.ProgressTx (mkTransaction hctx msg)
  | InteractionType.PUBSUB =>
    match hctx.getHandler BROKER_HANDLER msg.serviceArea msg.areaVersion msg.service msg.operation with
    | Except.error e => DispatchResult.err e
    | Except.ok h =>
      if msg.interactionStage = MAL_IP_STAGE_PUBSUB_PUBLISH_REGISTER ∨
          msg.interactionStage = MAL_IP_STAGE_PUBSUB_PUBLISH ∨
          msg.interactionStage = MAL_IP_STAGE_PUBSUB_PUBLISH_DEREGISTER then
        DispatchResult.invoked h TransactionKind.PublisherTx (mkTransaction hctx msg)
      else if msg.interactionStage = MAL_IP_STAGE_PUBSUB_REGISTER ∨
          msg.interactionStage = MAL_IP_STAGE_PUBSUB_DEREGISTER then
        DispatchResult.invoked h TransactionKind.SubscriberTx (mkTransaction hctx msg)
      else
        DispatchResult.err MalError.BadPubSubStage

/-! ### Helper definitions and lemmas for the claims -/

/-- A freshly built `OperationContext` (`NewOperationContext` initialises
the counter to 0 and the handler map empty). -/
def freshContext : OperationContext :=
  { ctx := ⟨[], false⟩, uri := "", handlers := [], txcounter := 0 }

/-- The context after `n` successive `TransactionId` calls. -/
def ctxAfterCalls (ictx : OperationContext) : Nat → OperationContext
  | 0 => ictx
  | n + 1 => ((ctxAfterCalls ictx n).TransactionId).2

/-- The value returned by the `(n+1)`-th successive `TransactionId`
call. -/
def tidOfCall (ictx : OperationContext) (n : Nat) : Nat :=
  ((ctxAfterCalls ictx n).TransactionId).1

theorem txcounter_after (n : Nat) :
    (ctxAfterCalls freshContext n).txcounter = n % 2 ^ 64 := by
  induction n with
  | zero => rfl
  | succ k ih =>
    simp only [ctxAfterCalls, OperationContext.TransactionId, ih]
    rw [Nat.add_mod k 1]
    norm_num

theorem tidOfCall_eq (n : Nat) :
    tidOfCall freshContext n = (n + 1) % 2 ^ 64 := by
  simp only [tidOfCall, OperationContext.TransactionId, txcounter_after]
  rw [Nat.add_mod n 1]
  norm_num

/-! ### C4 — transaction identifier allocation -/

/-- C4 (counterexample): the claim that every `N` successive
`TransactionId` calls return pairwise-distinct, strictly increasing
values fails once the 64-bit counter wraps: on a fresh context, call
number `2 ^ 64 + 1` returns the same value as call number 1, and call
number `2 ^ 64` returns a smaller value than call number `2 ^ 64 - 1`. -/
theorem C4_counterexample_wraparound :
    tidOfCall freshContext 0 = tidOfCall freshContext (2 ^ 64) ∧
    tidOfCall freshContext (2 ^ 64 - 1) < tidOfCall freshContext (2 ^ 64 - 2) := by
  rw [tidOfCall_eq, tidOfCall_eq, tidOfCall_eq, tidOfCall_eq]
  norm_num

/-- C4 (amended): each `TransactionId` call returns (and stores) the
previous counter value plus one reduced modulo `2 ^ 64`; on a fresh
context the first call returns 1, the `n`-th call returns `n` as long as
the counter has not wrapped (`n < 2 ^ 64`), and the returned values are
strictly increasing in issuance order up to that bound (hence
pairwise distinct). -/
theorem C4_transaction_id_amended :
    (∀ ictx : OperationContext,
        ictx.TransactionId.1 = (ictx.txcounter + 1) % 2 ^ 64 ∧
        ictx.TransactionId.2.txcounter = (ictx.txcounter + 1) % 2 ^ 64) ∧
    tidOfCall freshContext 0 = 1 ∧
    (∀ n : Nat, n + 1 < 2 ^ 64 → tidOfCall freshContext n = n + 1) ∧
    (∀ i j : Nat, i < j → j + 1 < 2 ^ 64 →
        tidOfCall freshContext i < tidOfCall freshContext j) := by
  refine ⟨fun ictx => ⟨rfl, rfl⟩, by rw [tidOfCall_eq]; norm_num, fun n h => ?_,
    fun i j hij hj => ?_⟩
  · rw [tidOfCall_eq, Nat.mod_eq_of_lt h]
  · have hi : i + 1 < 2 ^ 64 := lt_trans (by omega) hj
    rw [tidOfCall_eq, tidOfCall_eq, Nat.mod_eq_of_lt hi, Nat.mod_eq_of_lt hj]
    omega

/-- C4 (witness for the amended theorem): the second and fourth calls on
a fresh context return 2 and 4, in increasing order. -/
theorem C4_transaction_id_amended_witness :
    tidOfCall freshContext 1 = 2 ∧
    tidOfCall freshContext 1 < tidOfCall freshContext 3 := by
  refine ⟨C4_transaction_id_amended.2.2.1 1 (by norm_num), ?_⟩
  exact C4_transaction_id_amended.2.2.2 1 3 (by norm_num) (by norm_num)

/-! ### C8 — duplicate registration is rejected without state change -/

/-- C8: `OperationContext.register` of an already-present transaction id
returns the duplicate-transaction error and leaves the map unchanged;
`OperationContext.deregister` of an absent id returns the
unknown-transaction error and leaves the map unchanged;
`HandlerContext.register` under a taken 4-tuple key returns the
duplicate-handler error, leaves the context unchanged, and the
previously registered descriptor stays in place. -/
theorem C8_duplicate_registration :
    (∀ (ictx : OperationContext) (tid : Nat), tid ∈ ictx.handlers →
        ictx.register tid = (some MalError.DuplicateTransaction, ictx)) ∧
    (∀ (ictx : OperationContext) (tid : Nat), tid ∉ ictx.handlers →
        ictx.deregister tid = (some MalError.UnknownTransaction, ictx)) ∧
    (∀ (hctx : HandlerContext) (ht a v s o h : Nat) (d : HandlerDesc),
        hctx.handlers.lookup (hkey a v s o) = some d →
        hctx.register ht a v s o h = (some MalError.DuplicateHandler, hctx) ∧
        (hctx.register ht a v s o h).2.handlers.lookup (hkey a v s o) = some d) := by
  refine ⟨fun ictx tid h => ?_, fun ictx tid h => ?_, fun hctx ht a v s o h d hd => ?_⟩
  · simp [OperationContext.register, h]
  · simp [OperationContext.deregister, h]
  · constructor
    · simp [HandlerContext.register, hd]
    · simp [HandlerContext.register, hd]

/-- C8 (witness): concrete duplicate registrations are rejected without
state change. -/
theorem C8_duplicate_registration_witness :
    ({ ctx := ⟨[], false⟩, uri := "a", handlers := [5], txcounter := 7 } :
        OperationContext).register 5 =
      (some MalError.DuplicateTransaction,
        { ctx := ⟨[], false⟩, uri := "a", handlers := [5], txcounter := 7 }) ∧
    ({ ctx := ⟨[], false⟩, uri := "a", handlers := [5], txcounter := 7 } :
        OperationContext).deregister 6 =
      (some MalError.UnknownTransaction,
        { ctx := ⟨[], false⟩, uri := "a", handlers := [5], txcounter := 7 }) ∧
    ({ uri := "h", handlers := [(hkey 1 1 1 1, ⟨SUBMIT_HANDLER, 1, 1, 1, 1, 9⟩)] } :
        HandlerContext).register INVOKE_HANDLER 1 1 1 1 3 =
      (some MalError.DuplicateHandler,
        { uri := "h", handlers := [(hkey 1 1 1 1, ⟨SUBMIT_HANDLER, 1, 1, 1, 1, 9⟩)] }) := by
  refine ⟨C8_duplicate_registration.1 _ 5 (by decide),
    C8_duplicate_registration.2.1 _ 6 (by decide),
    (C8_duplicate_registration.2.2 _ INVOKE_HANDLER 1 1 1 1 3 ⟨SUBMIT_HANDLER, 1, 1, 1, 1, 9⟩
      (by decide)).1⟩

/-! ### C3 — Close -/

/-- A Submit-style operation still in CREATED: queue allocated and open,
transaction id never registered in the context (registration only
happens when the interaction is initiated). -/
def closeBugOp : OperationX :=
  { tid := 1, ch := some ⟨[], false⟩, urito := "u",
    area := 1, areaVersion := 1, service := 1, operation := 1,
    status := Status.CREATED }

/-- The owning context of `closeBugOp`: the operation's transaction id is
not in the handler map. -/
def closeBugCtx : OperationContext :=
  { ctx := ⟨[], false⟩, uri := "c", handlers := [], txcounter := 1 }

/-- C3 (code bug): because `Close` overwrites `status` with CLOSED
*before* evaluating the guard `status != _CREATED && status != _FINAL`,
the guard always passes, so `Close` on an operation in CREATED (or
FINAL, both of which have no registered transaction id) calls
`deregister` and returns its "No handler registered for this
transaction" error — contradicting the claim that `Close` never returns
an error for such operations.  The other claimed effects do hold: the
queue is closed (`ch` reset to nil), the status becomes CLOSED, and a
second `Close` on the closed operation returns no error and changes
nothing. -/
theorem C3_close_returns_error_for_created_and_final :
    (closeBugOp.Close closeBugCtx).1 = some MalError.UnknownTransaction ∧
    ({ closeBugOp with status := Status.FINAL }.Close closeBugCtx).1 =
      some MalError.UnknownTransaction ∧
    (closeBugOp.Close closeBugCtx).2.1.status = Status.CLOSED ∧
    (closeBugOp.Close closeBugCtx).2.1.ch = none ∧
    ((closeBugOp.Close closeBugCtx).2.1.Close (closeBugOp.Close closeBugCtx).2.2) =
      (none, (closeBugOp.Close closeBugCtx).2.1, (closeBugOp.Close closeBugCtx).2.2) := by
  refine ⟨rfl, rfl, rfl, rfl, rfl⟩

/-! ### C10 — Reset changes only the transaction id and the status -/

/-- C10: on an operation in FINAL, `Reset` succeeds, allocates the next
counter value as the fresh transaction id, returns the status to
CREATED, and leaves every other part of the operation (queue included:
neither closed, drained nor reallocated) and of the owning context
(handler map, URI, transport state) unchanged, apart from the bumped
counter; a message still buffered in the queue is consumed by the next
waiting call (here: `Submit`) after `Reset`. -/
theorem C10_reset_frame (op : OperationX) (ictx : OperationContext)
    (hst : op.status = Status.FINAL) :
    (op.Reset ictx).1 = none ∧
    (op.Reset ictx).2.1.tid = (ictx.txcounter + 1) % 2 ^ 64 ∧
    (op.Reset ictx).2.1.status = Status.CREATED ∧
    (op.Reset ictx).2.1.ch = op.ch ∧
    (op.Reset ictx).2.1.urito = op.urito ∧
    (op.Reset ictx).2.1.area = op.area ∧
    (op.Reset ictx).2.1.areaVersion = op.areaVersion ∧
    (op.Reset ictx).2.1.service = op.service ∧
    (op.Reset ictx).2.1.operation = op.operation ∧
    (op.Reset ictx).2.2.txcounter = (ictx.txcounter + 1) % 2 ^ 64 ∧
    (op.Reset ictx).2.2.handlers = ictx.handlers ∧
    (op.Reset ictx).2.2.uri = ictx.uri ∧
    (op.Reset ictx).2.2.ctx = ictx.ctx ∧
    (∀ (m : Message) (rest : List Message) (c : Bool) (body : List Nat),
        op.ch = some ⟨m :: rest, c⟩ →
        ictx.ctx.sendFails = false →
        (ictx.txcounter + 1) % 2 ^ 64 ∉ ictx.handlers →
        (SubmitOperationX.Submit (op.Reset ictx).2.1 (op.Reset ictx).2.2 body).2.1.ch =
          some ⟨rest, c⟩) := by
  have hr : op.Reset ictx =
      (none, { op with tid := (ictx.txcounter + 1) % 2 ^ 64, status := Status.CREATED },
        { ictx with txcounter := (ictx.txcounter + 1) % 2 ^ 64 }) := by
    simp [OperationX.Reset, hst, OperationContext.TransactionId]
  rw [hr]
  refine ⟨rfl, rfl, rfl, rfl, rfl, rfl, rfl, rfl, rfl, rfl, rfl, rfl, rfl, ?_⟩
  intro m rest c body hch hsend hreg
  simp only [SubmitOperationX.Submit, OperationContext.register, Ctx.Send,
    OperationX.finalize, OperationContext.deregister, hch, hsend, hreg]
  simp [hreg]
  by_cases hstage : m.interactionStage = MAL_IP_STAGE_SUBMIT_ACK <;>
    by_cases herr : m.isErrorMessage <;>
    simp [hstage, herr, hsend]

/-- A SUBMIT_ACK reply usable as a buffered message in witnesses. -/
def ackMsg : Message :=
  { uriFrom := "p", uriTo := "c", interactionType := InteractionType.SUBMIT,
    interactionStage := MAL_IP_STAGE_SUBMIT_ACK, serviceArea := 1,
    areaVersion := 1, service := 1, operation := 1, transactionId := 3,
    isErrorMessage := false, body := [] }

/-- A finished (FINAL) operation with one message still buffered. -/
def resetWitnessOp : OperationX :=
  { tid := 3, ch := some ⟨[ackMsg], false⟩, urito := "u",
    area := 1, areaVersion := 1, service := 1, operation := 1,
    status := Status.FINAL }

/-- The owning context of `resetWitnessOp`. -/
def resetWitnessCtx : OperationContext :=
  { ctx := ⟨[], false⟩, uri := "c", handlers := [], txcounter := 3 }

/-- C10 (witness): `Reset` on a concrete FINAL operation succeeds,
returns to CREATED, and the next `Submit` consumes the message still
buffered from the previous use. -/
theorem C10_reset_frame_witness :
    (resetWitnessOp.Reset resetWitnessCtx).1 = none ∧
    (resetWitnessOp.Reset resetWitnessCtx).2.1.status = Status.CREATED ∧
    (SubmitOperationX.Submit (resetWitnessOp.Reset resetWitnessCtx).2.1
        (resetWitnessOp.Reset resetWitnessCtx).2.2 []).2.1.ch = some ⟨[], false⟩ := by
  have h := C10_reset_frame resetWitnessOp resetWitnessCtx rfl
  exact ⟨h.1, h.2.2.1,
    h.2.2.2.2.2.2.2.2.2.2.2.2.2 ackMsg [] false [] rfl rfl (by decide)⟩

/-! ### C1 — the Submit interaction -/

/-- C1: `Submit` called in CREATED emits the SUBMIT message to the
transport and consumes exactly one reply from the inbound queue.  A
reply with stage SUBMIT_ACK is returned to the caller, paired with the
Error result exactly when `is_error_message` is set; a reply with any
other stage yields the bad-stage error.  Either way the operation ends
FINAL (deregistered from the context map), a subsequent `Submit` returns
the bad-status error and changes nothing, and `Reset` returns the
operation to CREATED. -/
theorem C1_submit_created (op : OperationX) (ictx : OperationContext)
    (body : List Nat) (m : Message) (rest : List Message) (c : Bool)
    (hst : op.status = Status.CREATED)
    (hch : op.ch = some ⟨m :: rest, c⟩)
    (hsend : ictx.ctx.sendFails = false)
    (hreg : op.tid ∉ ictx.handlers) :
    (SubmitOperationX.Submit op ictx body).2.2.ctx.sent =
      ictx.ctx.sent ++ [submitMsg ictx op body] ∧
    (SubmitOperationX.Submit op ictx body).2.1.ch = some ⟨rest, c⟩ ∧
    (m.interactionStage = MAL_IP_STAGE_SUBMIT_ACK →
      (SubmitOperationX.Submit op ictx body).1 =
        OpOutcome.ret (some m)
          (if m.isErrorMessage then some MalError.ErrorMessage else none)) ∧
    (m.interactionStage ≠ MAL_IP_STAGE_SUBMIT_ACK →
      (SubmitOperationX.Submit op ictx body).1 =
        OpOutcome.ret none (some MalError.BadReturnMessage)) ∧
    (SubmitOperationX.Submit op ictx body).2.1.status = Status.FINAL ∧
    (SubmitOperationX.Submit op ictx body).2.2.handlers = ictx.handlers ∧
    (∀ (ictx2 : OperationContext) (body2 : List Nat),
        SubmitOperationX.Submit (SubmitOperationX.Submit op ictx body).2.1 ictx2 body2 =
          (OpOutcome.ret none (some MalError.BadStatus),
            (SubmitOperationX.Submit op ictx body).2.1, ictx2)) ∧
    ((SubmitOperationX.Submit op ictx body).2.1.Reset
        (SubmitOperationX.Submit op ictx body).2.2).2.1.status = Status.CREATED := by
  by_cases hstage : m.interactionStage = MAL_IP_STAGE_SUBMIT_ACK <;>
    by_cases herr : m.isErrorMessage <;>
    simp [SubmitOperationX.Submit, OperationContext.register, Ctx.Send,
      OperationX.finalize, OperationContext.deregister, OperationX.Reset,
      OperationContext.TransactionId, submitMsg,
      hst, hch, hsend, hreg, hstage, herr]

/-- The context used by the C1 witness: empty handler map, working
transport. -/
def submitWitnessCtx : OperationContext :=
  { ctx := ⟨[], false⟩, uri := "c", handlers := [], txcounter := 3 }

/-- A fresh Submit operation with the SUBMIT_ACK reply already buffered. -/
def submitWitnessOp : OperationX :=
  { tid := 3, ch := some ⟨[ackMsg], false⟩, urito := "u",
    area := 1, areaVersion := 1, service := 1, operation := 1,
    status := Status.CREATED }

/-- C1 (witness): the concrete Submit run emits the SUBMIT message,
consumes the buffered SUBMIT_ACK, returns it without error, and ends
FINAL. -/
theorem C1_submit_created_witness :
    (SubmitOperationX.Submit submitWitnessOp submitWitnessCtx [2]).2.2.ctx.sent =
      [submitMsg submitWitnessCtx submitWitnessOp [2]] ∧
    (SubmitOperationX.Submit submitWitnessOp submitWitnessCtx [2]).1 =
      OpOutcome.ret (some ackMsg) none ∧
    (SubmitOperationX.Submit submitWitnessOp submitWitnessCtx [2]).2.1.status =
      Status.FINAL := by
  have h := C1_submit_created submitWitnessOp submitWitnessCtx [2] ackMsg [] false
    rfl rfl rfl (by decide)
  refine ⟨h.1, ?_, h.2.2.2.2.1⟩
  have h3 := h.2.2.1 (by decide)
  simpa using h3

/-! ### C6 — Invoke GetResponse -/

/-- C6: `GetResponse` on an Invoke operation is legal only in
ACKNOWLEDGED, where it consumes one message from the queue: the
INVOKE_RESPONSE message is returned (cached, with the Error result
exactly when `is_error_message` is set) and any unexpected stage yields
the bad-stage error; both end FINAL.  Called in FINAL with a cached
response it returns that response and changes nothing.  Called in any
other status it returns the bad-status error and changes nothing, so
nothing is consumed from the queue. -/
theorem C6_invoke_get_response (op : InvokeOperationX) (ictx : OperationContext) :
    (∀ (m : Message) (rest : List Message) (c : Bool),
      op.status = Status.ACKNOWLEDGED → op.ch = some ⟨m :: rest, c⟩ →
      (InvokeOperationX.GetResponse op ictx).2.1.ch = some ⟨rest, c⟩ ∧
      (m.interactionStage = MAL_IP_STAGE_INVOKE_RESPONSE →
        (InvokeOperationX.GetResponse op ictx).1 =
          OpOutcome.ret (some m)
            (if m.isErrorMessage then some MalError.ErrorMessage else none) ∧
        (InvokeOperationX.GetResponse op ictx).2.1.response = some m) ∧
      (m.interactionStage ≠ MAL_IP_STAGE_INVOKE_RESPONSE →
        (InvokeOperationX.GetResponse op ictx).1 =
          OpOutcome.ret none (some MalError.BadReturnMessage)) ∧
      (InvokeOperationX.GetResponse op ictx).2.1.status = Status.FINAL) ∧
    (∀ r : Message, op.status = Status.FINAL → op.response = some r →
      InvokeOperationX.GetResponse op ictx =
        (OpOutcome.ret (some r)
          (if r.isErrorMessage then some MalError.ErrorMessage else none), op, ictx)) ∧
    (op.status ≠ Status.ACKNOWLEDGED → (op.status = Status.FINAL → op.response = none) →
      InvokeOperationX.GetResponse op ictx =
        (OpOutcome.ret none (some MalError.BadStatus), op, ictx)) := by
  refine ⟨fun m rest c hst hch => ?_, fun r hst hresp => ?_, fun hst hfr => ?_⟩
  · by_cases hstage : m.interactionStage = MAL_IP_STAGE_INVOKE_RESPONSE <;>
      by_cases herr : m.isErrorMessage <;>
      simp [InvokeOperationX.GetResponse, OperationX.finalize,
        OperationContext.deregister, hst, hch, hstage, herr]
  · by_cases herr : r.isErrorMessage <;>
      simp [InvokeOperationX.GetResponse, hst, hresp, herr]
  · cases hs : op.status <;> cases hr2 : op.response <;>
      simp_all [InvokeOperationX.GetResponse]

/-- An INVOKE_RESPONSE reply carrying an application error. -/
def invRespMsg : Message :=
  { uriFrom := "p", uriTo := "c", interactionType := InteractionType.INVOKE,
    interactionStage := MAL_IP_STAGE_INVOKE_RESPONSE, serviceArea := 1,
    areaVersion := 1, service := 1, operation := 1, transactionId := 4,
    isErrorMessage := true, body := [238] }

/-- An acknowledged Invoke operation with the response already buffered. -/
def invokeWitnessOp : InvokeOperationX :=
  { tid := 4, ch := some ⟨[invRespMsg], false⟩, urito := "u",
    area := 1, areaVersion := 1, service := 1, operation := 1,
    status := Status.ACKNOWLEDGED, response := none }

/-- C6 (witness): on the concrete acknowledged operation, `GetResponse`
consumes the buffered INVOKE_RESPONSE and returns it together with the
Error result (`is_error_message` is set), caching it; and on an
operation in CREATED it returns the bad-status error and changes
nothing. -/
theorem C6_invoke_get_response_witness :
    (InvokeOperationX.GetResponse invokeWitnessOp submitWitnessCtx).1 =
      OpOutcome.ret (some invRespMsg) (some MalError.ErrorMessage) ∧
    (InvokeOperationX.GetResponse invokeWitnessOp submitWitnessCtx).2.1.response =
      some invRespMsg ∧
    InvokeOperationX.GetResponse { invokeWitnessOp with status := Status.CREATED }
        submitWitnessCtx =
      (OpOutcome.ret none (some MalError.BadStatus),
        { invokeWitnessOp with status := Status.CREATED }, submitWitnessCtx) := by
  have h := (C6_invoke_get_response invokeWitnessOp submitWitnessCtx).1 invRespMsg [] false
    rfl rfl
  have h2 := h.2.1 (by decide)
  have h3 := (C6_invoke_get_response { invokeWitnessOp with status := Status.CREATED }
    submitWitnessCtx).2.2 (by decide) (by decide)
  exact ⟨by simpa using h2.1, h2.2, h3⟩

/-! ### C5 — Progress GetUpdate as a lazy sequence -/

/-- C5: in ACKNOWLEDGED or PROGRESSING, `GetUpdate` consumes one message
from the inbound queue.  A (non-error) PROGRESS_UPDATE message is
returned and moves the status to PROGRESSING; a PROGRESS_RESPONSE
message makes `GetUpdate` return no message and no error, caches the
response and ends FINAL, so that a later `GetResponse` (in FINAL with
the cached response) returns it; any other stage yields the bad-stage
error and FINAL. -/
theorem C5_progress_get_update (op : ProgressOperationX) (ictx : OperationContext) :
    (∀ (m : Message) (rest : List Message) (c : Bool),
      (op.status = Status.ACKNOWLEDGED ∨ op.status = Status.PROGRESSING) →
      op.ch = some ⟨m :: rest, c⟩ →
      (ProgressOperationX.GetUpdate op ictx).2.1.ch = some ⟨rest, c⟩ ∧
      (m.interactionStage = MAL_IP_STAGE_PROGRESS_UPDATE → m.isErrorMessage = false →
        (ProgressOperationX.GetUpdate op ictx).1 = OpOutcome.ret (some m) none ∧
        (ProgressOperationX.GetUpdate op ictx).2.1.status = Status.PROGRESSING ∧
        (ProgressOperationX.GetUpdate op ictx).2.1.response = op.response) ∧
      (m.interactionStage = MAL_IP_STAGE_PROGRESS_RESPONSE →
        (ProgressOperationX.GetUpdate op ictx).1 = OpOutcome.ret none none ∧
        (ProgressOperationX.GetUpdate op ictx).2.1.status = Status.FINAL ∧
        (ProgressOperationX.GetUpdate op ictx).2.1.response = some m ∧
        (∀ ictx2 : OperationContext,
          (ProgressOperationX.GetResponse (ProgressOperationX.GetUpdate op ictx).2.1
              ictx2).1 =
            OpOutcome.ret (some m)
              (if m.isErrorMessage then some MalError.ErrorMessage else none))) ∧
      (m.interactionStage ≠ MAL_IP_STAGE_PROGRESS_UPDATE →
        m.interactionStage ≠ MAL_IP_STAGE_PROGRESS_RESPONSE →
        (ProgressOperationX.GetUpdate op ictx).1 =
          OpOutcome.ret none (some MalError.BadReturnMessage) ∧
        (ProgressOperationX.GetUpdate op ictx).2.1.status = Status.FINAL)) ∧
    (∀ r : Message, op.status = Status.FINAL → op.response = some r →
      ProgressOperationX.GetResponse op ictx =
        (OpOutcome.ret (some r)
          (if r.isErrorMessage then some MalError.ErrorMessage else none), op, ictx)) := by
  refine ⟨fun m rest c hst hch => ?_, fun r hst hresp => ?_⟩
  · simp only [MAL_IP_STAGE_PROGRESS_UPDATE, MAL_IP_STAGE_PROGRESS_RESPONSE]
    rcases hst with hst | hst <;>
      by_cases hupd : m.interactionStage = 3 <;>
      by_cases hresp2 : m.interactionStage = 4 <;>
      by_cases herr : m.isErrorMessage <;>
      simp_all [ProgressOperationX.GetUpdate, ProgressOperationX.GetResponse,
        OperationX.finalize, OperationContext.deregister,
        MAL_IP_STAGE_PROGRESS_UPDATE, MAL_IP_STAGE_PROGRESS_RESPONSE]
  · by_cases herr : r.isErrorMessage <;>
      simp [ProgressOperationX.GetResponse, hst, hresp, herr]

/-- A PROGRESS_UPDATE message. -/
def updMsg : Message :=
  { uriFrom := "p", uriTo := "c", interactionType := InteractionType.PROGRESS,
    interactionStage := MAL_IP_STAGE_PROGRESS_UPDATE, serviceArea := 1,
    areaVersion := 1, service := 1, operation := 1, transactionId := 5,
    isErrorMessage := false, body := [16] }

/-- A PROGRESS_RESPONSE message. -/
def respMsg : Message :=
  { uriFrom := "p", uriTo := "c", interactionType := InteractionType.PROGRESS,
    interactionStage := MAL_IP_STAGE_PROGRESS_RESPONSE, serviceArea := 1,
    areaVersion := 1, service := 1, operation := 1, transactionId := 5,
    isErrorMessage := false, body := [255] }

/-- An acknowledged Progress operation with one update and the response
buffered. -/
def progressWitnessOp : ProgressOperationX :=
  { tid := 5, ch := some ⟨[updMsg, respMsg], false⟩, urito := "u",
    area := 1, areaVersion := 1, service := 1, operation := 1,
    status := Status.ACKNOWLEDGED, response := none }

/-- C5 (witness): on the concrete acknowledged operation, `GetUpdate`
returns the buffered update and moves to PROGRESSING; a second
`GetUpdate` hits the PROGRESS_RESPONSE, returns no message and no error,
and the subsequent `GetResponse` returns the cached response. -/
theorem C5_progress_get_update_witness :
    (ProgressOperationX.GetUpdate progressWitnessOp submitWitnessCtx).1 =
      OpOutcome.ret (some updMsg) none ∧
    (ProgressOperationX.GetUpdate progressWitnessOp submitWitnessCtx).2.1.status =
      Status.PROGRESSING ∧
    (ProgressOperationX.GetUpdate
        (ProgressOperationX.GetUpdate progressWitnessOp submitWitnessCtx).2.1
        submitWitnessCtx).1 = OpOutcome.ret none none ∧
    (ProgressOperationX.GetResponse
        (ProgressOperationX.GetUpdate
          (ProgressOperationX.GetUpdate progressWitnessOp submitWitnessCtx).2.1
          submitWitnessCtx).2.1
        submitWitnessCtx).1 = OpOutcome.ret (some respMsg) none := by
  have h1 := (C5_progress_get_update progressWitnessOp submitWitnessCtx).1 updMsg
    [respMsg] false (Or.inl rfl) rfl
  have h1u := h1.2.1 (by decide) (by decide)
  have hop2 := (C5_progress_get_update
    (ProgressOperationX.GetUpdate progressWitnessOp submitWitnessCtx).2.1
    submitWitnessCtx).1 respMsg [] false (Or.inr h1u.2.1) h1.1
  have h2r := hop2.2.2.1 (by decide)
  refine ⟨h1u.1, h1u.2.1, h2r.1, ?_⟩
  have := h2r.2.2.2 submitWitnessCtx
  simpa using this

/-! ### C7 — Deregister drains pending notifies -/

/-- The deregister wait loop skips over any prefix of PUBSUB_NOTIFY
messages. -/
theorem deregisterWait_drains (op : OperationX) (ictx : OperationContext)
    (notifies : List Message) (l : List Message) (c : Bool)
    (hnot : ∀ x ∈ notifies, x.interactionStage = MAL_IP_STAGE_PUBSUB_NOTIFY) :
    SubscriberOperationX.deregisterWait op ictx (notifies ++ l) c =
      SubscriberOperationX.deregisterWait op ictx l c := by
  induction notifies with
  | nil => rfl
  | cons x xs ih =>
    rw [List.cons_append, SubscriberOperationX.deregisterWait,
      if_pos (hnot x (List.mem_cons_self x xs))]
    exact ih (fun y hy => hnot y (List.mem_cons_of_mem x hy))

/-- C7: `Deregister` in REGISTERED emits the PUBSUB_DEREGISTER message,
silently discards every buffered PUBSUB_NOTIFY message (any number of
them), and returns the first non-NOTIFY message: a (non-error)
PUBSUB_DEREGISTER_ACK is returned without error; any other stage yields
the bad-stage error.  Either way the operation ends FINAL with the
notifies and the consumed message gone from the queue. -/
theorem C7_deregister_drains_notifies (op : OperationX) (ictx : OperationContext)
    (body : List Nat) (notifies : List Message) (m : Message)
    (rest : List Message) (c : Bool)
    (hst : op.status = Status.REGISTERED)
    (hch : op.ch = some ⟨notifies ++ m :: rest, c⟩)
    (hnot : ∀ x ∈ notifies, x.interactionStage = MAL_IP_STAGE_PUBSUB_NOTIFY)
    (hm : m.interactionStage ≠ MAL_IP_STAGE_PUBSUB_NOTIFY)
    (hsend : ictx.ctx.sendFails = false) :
    (SubscriberOperationX.Deregister op ictx body).2.2.ctx.sent =
      ictx.ctx.sent ++ [subDeregisterMsg ictx op body] ∧
    (SubscriberOperationX.Deregister op ictx body).2.1.ch = some ⟨rest, c⟩ ∧
    (m.interactionStage = MAL_IP_STAGE_PUBSUB_DEREGISTER_ACK →
      m.isErrorMessage = false →
      (SubscriberOperationX.Deregister op ictx body).1 = OpOutcome.ret (some m) none) ∧
    (m.interactionStage ≠ MAL_IP_STAGE_PUBSUB_DEREGISTER_ACK →
      (SubscriberOperationX.Deregister op ictx body).1 =
        OpOutcome.ret none (some MalError.BadReturnMessage)) ∧
    (SubscriberOperationX.Deregister op ictx body).2.1.status = Status.FINAL := by
  have hD : SubscriberOperationX.Deregister op ictx body =
      SubscriberOperationX.deregisterWait
        { op with status := Status.DEREGISTER_INITIATED }
        { ictx with ctx :=
            { ictx.ctx with sent := ictx.ctx.sent ++
                [subDeregisterMsg ictx { op with status := Status.DEREGISTER_INITIATED } body] } }
        (notifies ++ m :: rest) c := by
    simp [SubscriberOperationX.Deregister, Ctx.Send, hst, hch, hsend]
  rw [hD, deregisterWait_drains _ _ notifies (m :: rest) c hnot]
  by_cases hmack : m.interactionStage = MAL_IP_STAGE_PUBSUB_DEREGISTER_ACK <;>
    by_cases herr : m.isErrorMessage <;>
    simp [SubscriberOperationX.deregisterWait, OperationX.finalize,
      OperationContext.deregister, subDeregisterMsg,
      (show MAL_IP_STAGE_PUBSUB_DEREGISTER_ACK ≠ MAL_IP_STAGE_PUBSUB_NOTIFY by decide),
      hm, hmack, herr] <;>
    (try (split <;> rfl))

/-- A PUBSUB_NOTIFY message. -/
def notifyMsg : Message :=
  { uriFrom := "b", uriTo := "c", interactionType := InteractionType.PUBSUB,
    interactionStage := MAL_IP_STAGE_PUBSUB_NOTIFY, serviceArea := 1,
    areaVersion := 1, service := 1, operation := 1, transactionId := 6,
    isErrorMessage := false, body := [1] }

/-- A PUBSUB_DEREGISTER_ACK message. -/
def deregAckMsg : Message :=
  { uriFrom := "b", uriTo := "c", interactionType := InteractionType.PUBSUB,
    interactionStage := MAL_IP_STAGE_PUBSUB_DEREGISTER_ACK, serviceArea := 1,
    areaVersion := 1, service := 1, operation := 1, transactionId := 6,
    isErrorMessage := false, body := [] }

/-- A registered subscriber with two stale notifies and the
deregister-ack buffered. -/
def subscriberWitnessOp : OperationX :=
  { tid := 6, ch := some ⟨[notifyMsg, notifyMsg, deregAckMsg], false⟩,
    urito := "b", area := 1, areaVersion := 1, service := 1, operation := 1,
    status := Status.REGISTERED }

/-- The owning context of `subscriberWitnessOp` (the subscriber is still
registered under its transaction id). -/
def subscriberWitnessCtx : OperationContext :=
  { ctx := ⟨[], false⟩, uri := "c", handlers := [6], txcounter := 6 }

/-- C7 (witness): with two stale notifies ahead of the deregister-ack,
the concrete `Deregister` run returns the ack without error, leaves the
queue drained, and ends FINAL. -/
theorem C7_deregister_drains_notifies_witness :
    (SubscriberOperationX.Deregister subscriberWitnessOp subscriberWitnessCtx []).1 =
      OpOutcome.ret (some deregAckMsg) none ∧
    (SubscriberOperationX.Deregister subscriberWitnessOp subscriberWitnessCtx []).2.1.ch =
      some ⟨[], false⟩ ∧
    (SubscriberOperationX.Deregister subscriberWitnessOp
        subscriberWitnessCtx []).2.1.status = Status.FINAL := by
  have h := C7_deregister_drains_notifies subscriberWitnessOp subscriberWitnessCtx []
    [notifyMsg, notifyMsg] deregAckMsg [] false rfl rfl
    (by intro x hx; fin_cases hx <;> rfl) (by decide) rfl
  exact ⟨h.2.2.1 (by decide) (by decide), h.2.1, h.2.2.2.2⟩

/-! ### C2 — HandlerContext dispatch correctness -/

theorem getHandler_ok_iff (hctx : HandlerContext) (ht a v s o hh : Nat) :
    hctx.getHandler ht a v s o = Except.ok hh ↔
    ∃ d : HandlerDesc, hctx.handlers.lookup (hkey a v s o) = some d ∧
      d.handlerType = ht ∧ d.handler = hh := by
  unfold HandlerContext.getHandler
  cases hl : hctx.handlers.lookup (hkey a v s o) with
  | none => simp [hl]
  | some d =>
    by_cases hht : d.handlerType = ht <;> simp [hl, hht]

theorem dispatch_case (hctx : HandlerContext) (msg : Message) (h : Nat)
    (k : TransactionKind) (t : TransactionX) (ht : Nat) (kind : TransactionKind)
    (heq : (match hctx.getHandler ht msg.serviceArea msg.areaVersion msg.service msg.operation with
            | Except.error e => DispatchResult.err e
            | Except.ok hh =>
              DispatchResult.invoked hh kind (mkTransaction hctx msg)) =
          DispatchResult.invoked h k t) :
    hctx.getHandler ht msg.serviceArea msg.areaVersion msg.service msg.operation =
      Except.ok h ∧ k = kind ∧ t = mkTransaction hctx msg := by
  cases hg : hctx.getHandler ht msg.serviceArea msg.areaVersion msg.service msg.operation <;>
    rw [hg] at heq <;> simp_all

/-- C2: `OnMessage` invokes exactly the handler registered under the
message's `(area, area_version, service, operation)` 4-tuple, and only
when its registered handler type matches the message's interaction type;
an absent key or a mismatched handler type yields an error result and no
handler is invoked.  For PUBSUB messages the transaction variant is
chosen by stage: PUBLISH_REGISTER / PUBLISH / PUBLISH_DEREGISTER build a
publisher transaction, REGISTER / DEREGISTER build a subscriber
transaction, and any other stage yields the bad-stage error without
invoking the handler. -/
theorem C2_dispatch_correctness (hctx : HandlerContext) (msg : Message) :
    (∀ (h : Nat) (k : TransactionKind) (t : TransactionX),
      hctx.OnMessage msg = DispatchResult.invoked h k t →
      ∃ d : HandlerDesc,
        hctx.handlers.lookup
          (hkey msg.serviceArea msg.areaVersion msg.service msg.operation) = some d ∧
        d.handler = h ∧
        d.handlerType = requiredHandlerType msg.interactionType ∧
        t = mkTransaction hctx msg) ∧
    (hctx.handlers.lookup
        (hkey msg.serviceArea msg.areaVersion msg.service msg.operation) = none →
      hctx.OnMessage msg = DispatchResult.err MalError.HandlerNotRegistered) ∧
    (∀ d : HandlerDesc,
      hctx.handlers.lookup
        (hkey msg.serviceArea msg.areaVersion msg.service msg.operation) = some d →
      d.handlerType ≠ requiredHandlerType msg.interactionType →
      hctx.OnMessage msg = DispatchResult.err MalError.BadHandlerType) ∧
    (∀ d : HandlerDesc,
      msg.interactionType = InteractionType.PUBSUB →
      hctx.handlers.lookup
        (hkey msg.serviceArea msg.areaVersion msg.service msg.operation) = some d →
      d.handlerType = BROKER_HANDLER →
      ((msg.interactionStage = MAL_IP_STAGE_PUBSUB_PUBLISH_REGISTER ∨
        msg.interactionStage = MAL_IP_STAGE_PUBSUB_PUBLISH ∨
        msg.interactionStage = MAL_IP_STAGE_PUBSUB_PUBLISH_DEREGISTER →
        hctx.OnMessage msg =
          DispatchResult.invoked d.handler TransactionKind.PublisherTx
            (mkTransaction hctx msg)) ∧
      (msg.interactionStage = MAL_IP_STAGE_PUBSUB_REGISTER ∨
        msg.interactionStage = MAL_IP_STAGE_PUBSUB_DEREGISTER →
        hctx.OnMessage msg =
          DispatchResult.invoked d.handler TransactionKind.SubscriberTx
            (mkTransaction hctx msg)) ∧
      (msg.interactionStage ≠ MAL_IP_STAGE_PUBSUB_PUBLISH_REGISTER →
        msg.interactionStage ≠ MAL_IP_STAGE_PUBSUB_PUBLISH →
        msg.interactionStage ≠ MAL_IP_STAGE_PUBSUB_PUBLISH_DEREGISTER →
        msg.interactionStage ≠ MAL_IP_STAGE_PUBSUB_REGISTER →
        msg.interactionStage ≠ MAL_IP_STAGE_PUBSUB_DEREGISTER →
        hctx.OnMessage msg = DispatchResult.err MalError.BadPubSubStage))) := by
  refine ⟨fun h k t heq => ?_, fun hnone => ?_, fun d hd hne => ?_,
    fun d hps hd hbt => ?_⟩
  · cases hit : msg.interactionType
    all_goals
      simp only [HandlerContext.OnMessage, hit, requiredHandlerType] at heq ⊢
    case PUBSUB =>
      cases hg : hctx.getHandler BROKER_HANDLER msg.serviceArea msg.areaVersion
          msg.service msg.operation with
      | error e => rw [hg] at heq; simp at heq
      | ok hh =>
        rw [hg] at heq
        obtain ⟨d, hld, hdt, hdh⟩ := (getHandler_ok_iff hctx _ _ _ _ _ hh).mp hg
        split_ifs at heq <;> simp only [DispatchResult.invoked.injEq] at heq <;>
          exact ⟨d, hld, by rw [hdh, heq.1], hdt, heq.2.2.symm⟩
    all_goals
      obtain ⟨hg, hk, ht2⟩ := dispatch_case hctx msg h k t _ _ heq
    all_goals
      obtain ⟨d, hld, hdt, hdh⟩ := (getHandler_ok_iff hctx _ _ _ _ _ h).mp hg
    all_goals
      exact ⟨d, hld, hdh, hdt, ht2⟩
  · cases hit : msg.interactionType <;>
      simp [HandlerContext.OnMessage, HandlerContext.getHandler, hit, hnone]
  · cases hit : msg.interactionType <;>
      simp_all [HandlerContext.OnMessage, HandlerContext.getHandler,
        requiredHandlerType]
  · have hok : hctx.getHandler BROKER_HANDLER msg.serviceArea msg.areaVersion
        msg.service msg.operation = Except.ok d.handler :=
      (getHandler_ok_iff hctx _ _ _ _ _ d.handler).mpr ⟨d, hd, hbt, rfl⟩
    refine ⟨fun hpub => ?_, fun hsub => ?_, fun h1 h2 h3 h4 h5 => ?_⟩
    · simp [HandlerContext.OnMessage, hps, hok, hpub]
    · have hnp : ¬(msg.interactionStage = MAL_IP_STAGE_PUBSUB_PUBLISH_REGISTER ∨
          msg.interactionStage = MAL_IP_STAGE_PUBSUB_PUBLISH ∨
          msg.interactionStage = MAL_IP_STAGE_PUBSUB_PUBLISH_DEREGISTER) := by
        rcases hsub with hsub | hsub <;> rw [hsub] <;> decide
      simp [HandlerContext.OnMessage, hps, hok, hnp, hsub]
    · simp [HandlerContext.OnMessage, hps, hok, h1, h2, h3, h4, h5]

/-- A HandlerContext with one registered submit handler (callback id 7)
under the key (1,1,1,1). -/
def dispatchWitnessHctx : HandlerContext :=
  { uri := "h", handlers := [(hkey 1 1 1 1, ⟨SUBMIT_HANDLER, 1, 1, 1, 1, 7⟩)] }

/-- An inbound SUBMIT message addressed to the (1,1,1,1) operation. -/
def dispatchWitnessMsg : Message :=
  { uriFrom := "x", uriTo := "h", interactionType := InteractionType.SUBMIT,
    interactionStage := MAL_IP_STAGE_SUBMIT, serviceArea := 1,
    areaVersion := 1, service := 1, operation := 1, transactionId := 9,
    isErrorMessage := false, body := [1] }

/-- C2 (witness): dispatching the concrete SUBMIT message invokes the
handler registered under exactly its 4-tuple, with the submit handler
type. -/
theorem C2_dispatch_correctness_witness :
    ∃ d : HandlerDesc,
      dispatchWitnessHctx.handlers.lookup
        (hkey dispatchWitnessMsg.serviceArea dispatchWitnessMsg.areaVersion
          dispatchWitnessMsg.service dispatchWitnessMsg.operation) = some d ∧
      d.handler = 7 ∧
      d.handlerType = requiredHandlerType dispatchWitnessMsg.interactionType ∧
      mkTransaction dispatchWitnessHctx dispatchWitnessMsg =
        mkTransaction dispatchWitnessHctx dispatchWitnessMsg :=
  (C2_dispatch_correctness dispatchWitnessHctx dispatchWitnessMsg).1 7
    TransactionKind.SubmitTx (mkTransaction dispatchWitnessHctx dispatchWitnessMsg)
    (by decide)

/-! ### C9 — closed queue unblocks every waiting call with OperationEnds -/

/-- C9: for every operation method that waits on the inbound queue
(`Submit`, `Request`, `Invoke`, the two `GetResponse`s, `GetUpdate`,
the subscriber's and publisher's `Register` and `Deregister`, and
`GetNotify`), a queue that is closed and empty when the call waits makes
the call return no message and the operation-ends error, and leaves the
operation finalized (status FINAL). -/
theorem C9_closed_queue_operation_ends :
    (∀ (op : OperationX) (ictx : OperationContext) (body : List Nat),
      op.status = Status.CREATED → op.ch = some ⟨[], true⟩ →
      ictx.ctx.sendFails = false → op.tid ∉ ictx.handlers →
      (SubmitOperationX.Submit op ictx body).1 =
        OpOutcome.ret none (some MalError.OperationEnds) ∧
      (SubmitOperationX.Submit op ictx body).2.1.status = Status.FINAL) ∧
    (∀ (op : OperationX) (ictx : OperationContext) (body : List Nat),
      op.status = Status.CREATED → op.ch = some ⟨[], true⟩ →
      ictx.ctx.sendFails = false → op.tid ∉ ictx.handlers →
      (RequestOperationX.Request op ictx body).1 =
        OpOutcome.ret none (some MalError.OperationEnds) ∧
      (RequestOperationX.Request op ictx body).2.1.status = Status.FINAL) ∧
    (∀ (op : InvokeOperationX) (ictx : OperationContext) (body : List Nat),
      op.status = Status.CREATED → op.ch = some ⟨[], true⟩ →
      ictx.ctx.sendFails = false → op.tid ∉ ictx.handlers →
      (InvokeOperationX.Invoke op ictx body).1 =
        OpOutcome.ret none (some MalError.OperationEnds) ∧
      (InvokeOperationX.Invoke op ictx body).2.1.status = Status.FINAL) ∧
    (∀ (op : InvokeOperationX) (ictx : OperationContext),
      op.status = Status.ACKNOWLEDGED → op.ch = some ⟨[], true⟩ →
      (InvokeOperationX.GetResponse op ictx).1 =
        OpOutcome.ret none (some MalError.OperationEnds) ∧
      (InvokeOperationX.GetResponse op ictx).2.1.status = Status.FINAL) ∧
    (∀ (op : ProgressOperationX) (ictx : OperationContext),
      (op.status = Status.ACKNOWLEDGED ∨ op.status = Status.PROGRESSING) →
      op.ch = some ⟨[], true⟩ →
      (ProgressOperationX.GetUpdate op ictx).1 =
        OpOutcome.ret none (some MalError.OperationEnds) ∧
      (ProgressOperationX.GetUpdate op ictx).2.1.status = Status.FINAL) ∧
    (∀ (op : ProgressOperationX) (ictx : OperationContext),
      (op.status = Status.ACKNOWLEDGED ∨ op.status = Status.PROGRESSING) →
      op.ch = some ⟨[], true⟩ →
      (ProgressOperationX.GetResponse op ictx).1 =
        OpOutcome.ret none (some MalError.OperationEnds) ∧
      (ProgressOperationX.GetResponse op ictx).2.1.status = Status.FINAL) ∧
    (∀ (op : OperationX) (ictx : OperationContext) (body : List Nat),
      op.status = Status.CREATED → op.ch = some ⟨[], true⟩ →
      ictx.ctx.sendFails = false → op.tid ∉ ictx.handlers →
      (SubscriberOperationX.Register op ictx body).1 =
        OpOutcome.ret none (some MalError.OperationEnds) ∧
      (SubscriberOperationX.Register op ictx body).2.1.status = Status.FINAL) ∧
    (∀ (op : OperationX) (ictx : OperationContext),
      op.status = Status.REGISTERED → op.ch = some ⟨[], true⟩ →
      (SubscriberOperationX.GetNotify op ictx).1 =
        OpOutcome.ret none (some MalError.OperationEnds) ∧
      (SubscriberOperationX.GetNotify op ictx).2.1.status = Status.FINAL) ∧
    (∀ (op : OperationX) (ictx : OperationContext) (body : List Nat),
      op.status = Status.REGISTERED → op.ch = some ⟨[], true⟩ →
      ictx.ctx.sendFails = false →
      (SubscriberOperationX.Deregister op ictx body).1 =
        OpOutcome.ret none (some MalError.OperationEnds) ∧
      (SubscriberOperationX.Deregister op ictx body).2.1.status = Status.FINAL) ∧
    (∀ (op : OperationX) (ictx : OperationContext) (body : List Nat),
      op.status = Status.CREATED → op.ch = some ⟨[], true⟩ →
      ictx.ctx.sendFails = false → op.tid ∉ ictx.handlers →
      (PublisherOperationX.Register op ictx body).1 =
        OpOutcome.ret none (some MalError.OperationEnds) ∧
      (PublisherOperationX.Register op ictx body).2.1.status = Status.FINAL) ∧
    (∀ (op : OperationX) (ictx : OperationContext) (body : List Nat),
      op.status = Status.REGISTERED → op.ch = some ⟨[], true⟩ →
      ictx.ctx.sendFails = false →
      (PublisherOperationX.Deregister op ictx body).1 =
        OpOutcome.ret none (some MalError.OperationEnds) ∧
      (PublisherOperationX.Deregister op ictx body).2.1.status = Status.FINAL) := by
  refine ⟨fun op ictx body hst hch hsend hreg => ?_,
    fun op ictx body hst hch hsend hreg => ?_,
    fun op ictx body hst hch hsend hreg => ?_,
    fun op ictx hst hch => ?_,
    fun op ictx hst hch => ?_,
    fun op ictx hst hch => ?_,
    fun op ictx body hst hch hsend hreg => ?_,
    fun op ictx hst hch => ?_,
    fun op ictx body hst hch hsend => ?_,
    fun op ictx body hst hch hsend hreg => ?_,
    fun op ictx body hst hch hsend => ?_⟩
  · simp [SubmitOperationX.Submit, OperationContext.register, Ctx.Send,
      OperationX.finalize, OperationContext.deregister, hst, hch, hsend, hreg]
  · simp [RequestOperationX.Request, OperationContext.register, Ctx.Send,
      OperationX.finalize, OperationContext.deregister, hst, hch, hsend, hreg]
  · simp [InvokeOperationX.Invoke, OperationContext.register, Ctx.Send,
      OperationX.finalize, OperationContext.deregister, hst, hch, hsend, hreg]
  · simp [InvokeOperationX.GetResponse, OperationX.finalize,
      OperationContext.deregister, hst, hch]
  · rcases hst with hst | hst <;>
      simp [ProgressOperationX.GetUpdate, OperationX.finalize,
        OperationContext.deregister, hst, hch]
  · rcases hst with hst | hst <;>
      simp [ProgressOperationX.GetResponse, OperationX.finalize,
        OperationContext.deregister, hst, hch]
  · simp [SubscriberOperationX.Register, OperationContext.register, Ctx.Send,
      OperationX.finalize, OperationContext.deregister, hst, hch, hsend, hreg]
  · simp [SubscriberOperationX.GetNotify, OperationX.finalize,
      OperationContext.deregister, hst, hch]
  · simp [SubscriberOperationX.Deregister, SubscriberOperationX.deregisterWait,
      Ctx.Send, OperationX.finalize, OperationContext.deregister, hst, hch, hsend]
  · simp [PublisherOperationX.Register, OperationContext.register, Ctx.Send,
      OperationX.finalize, OperationContext.deregister, hst, hch, hsend, hreg]
  · simp [PublisherOperationX.Deregister, Ctx.Send, OperationX.finalize,
      OperationContext.deregister, hst, hch, hsend]

/-- A registered subscriber whose inbound queue has been closed while
empty. -/
def closedQueueOp : OperationX :=
  { tid := 8, ch := some ⟨[], true⟩, urito := "b",
    area := 1, areaVersion := 1, service := 1, operation := 1,
    status := Status.REGISTERED }

/-- C9 (witness): `GetNotify` on the concrete subscriber whose queue was
closed returns the operation-ends error and finalizes the operation. -/
theorem C9_closed_queue_operation_ends_witness :
    (SubscriberOperationX.GetNotify closedQueueOp submitWitnessCtx).1 =
      OpOutcome.ret none (some MalError.OperationEnds) ∧
    (SubscriberOperationX.GetNotify closedQueueOp submitWitnessCtx).2.1.status =
      Status.FINAL :=
  C9_closed_queue_operation_ends.2.2.2.2.2.2.2.1 closedQueueOp submitWitnessCtx
    rfl rfl

end MalApi
